import Mathlib

/-!
Verification of the phoebudget-server price-acquisition / portfolio-valuation core.

This file gives a shallow embedding, in Lean 4, of the pure computational core of
the repository and proves the specified properties about it.

Conventions of the embedding:
* Values of type rust_decimal::Decimal are modelled as exact rationals; the
  crate performs exact decimal arithmetic for the additions, subtractions and
  multiplications used here, and the quotients arising in this code are tiny.
* HashMap String Decimal is modelled as an association list with first-match
  lookup; insertion prepends, which matches overwrite-on-insert semantics.
* Asynchronous I/O (HTTP calls, SQL repositories, moka caches) is modelled by
  passing the outcome each external call would produce as an explicit argument
  (an oracle) and by returning the new cache state together with instrumentation
  fields that record which external interactions happened.
-/

/-- Model of rust_decimal::Decimal: an exact decimal quantity, embedded in the
rationals. -/
abbrev Decimal := ℚ

/-- Model of the AppError enum from src/error.rs. The DatabaseError payload
(a sqlx error) is modelled by its message string. -/
inductive AppError where
  | DatabaseError (msg : String)
  | ValidationError (msg : String)
  | AuthError (msg : String)
  | NotFoundError (msg : String)
  | InternalServerError (msg : String)
deriving DecidableEq

/-- Model of schemas::PortfolioJoinedRow from src/schemas.rs: one holding joined
with its asset-catalog data. -/
structure PortfolioJoinedRow where
  ticker : String
  name : String
  quantity : Decimal
  avg_buy_price : Decimal
  current_price : Decimal
  source : Option String
  api_ticker : Option String
  currency : Option String
  icon_url : Option String

/-- Model of schemas::InvestmentSummary from src/schemas.rs: the derived
per-holding report row. -/
structure InvestmentSummary where
  ticker : String
  name : String
  quantity : Decimal
  avg_buy_price : Decimal
  avg_buy_price_converted : Decimal
  current_price : Decimal
  current_price_converted : Decimal
  total_value : Decimal
  total_value_converted : Decimal
  change_pct : Decimal
  currency : String
  asset_currency : String
  icon_url : Option String

/-- Model of schemas::PortfolioResponse, restricted to the fields the two
build_portfolio_response functions construct (investments, total_cost,
absolute_change). -/
structure PortfolioResponse where
  investments : List InvestmentSummary
  total_cost : Decimal
  absolute_change : Decimal

/-- Model of HashMap String α as an association list. -/
abbrev HMap (α : Type) := List (String × α)

/-- Model of HashMap::get: first entry whose key matches, if any. -/
def hashMapGet {α : Type} (m : HMap α) (key : String) : Option α :=
  match m with
  | [] => none
  | (k, v) :: rest => if k = key then some v else hashMapGet rest key

/-- Model of the exchange-rate map passed to the valuation engine. -/
abbrev RateMap := HMap Decimal

namespace Portfolio

/-- Translation of calculate_investment_summary from src/portfolio.rs
(lines 12-48). The change percentage guard is inlined there. -/
def calculate_investment_summary (item : PortfolioJoinedRow) (exchange_rate : Decimal)
    (base_currency : String) : InvestmentSummary :=
  let asset_currency := item.currency.getD "USD"
  let current_price_native := item.current_price
  let current_price_converted := item.current_price * exchange_rate
  let avg_buy_converted := item.avg_buy_price * exchange_rate
  let total_value_native := item.quantity * current_price_native
  let total_value_converted := item.quantity * current_price_converted
  let change_pct :=
    if item.avg_buy_price > 0 then
      ((current_price_native - item.avg_buy_price) / item.avg_buy_price) * 100
    else 0
  { ticker := item.ticker
    name := item.name
    quantity := item.quantity
    avg_buy_price := item.avg_buy_price
    avg_buy_price_converted := avg_buy_converted
    current_price := current_price_native
    current_price_converted := current_price_converted
    total_value := total_value_native
    total_value_converted := total_value_converted
    change_pct := change_pct
    currency := base_currency
    asset_currency := asset_currency
    icon_url := item.icon_url }

/-- Body of the for-loop of build_portfolio_response from src/portfolio.rs
(lines 89-107), acting on the accumulator (summary_list, total_cost,
absolute_change). -/
def build_step (exchange_rates : RateMap) (base_currency : String)
    (acc : List InvestmentSummary × Decimal × Decimal) (item : PortfolioJoinedRow) :
    List InvestmentSummary × Decimal × Decimal :=
  let asset_currency := item.currency.getD "USD"
  let rate := if asset_currency = base_currency then 1
    else (hashMapGet exchange_rates asset_currency).getD 1
  let cost_converted := item.quantity * item.avg_buy_price * rate
  let value_converted := item.quantity * item.current_price * rate
  let change := value_converted - cost_converted
  (acc.1 ++ [calculate_investment_summary item rate base_currency],
    acc.2.1 + cost_converted, acc.2.2 + change)

/-- Translation of build_portfolio_response from src/portfolio.rs
(lines 80-114). -/
def build_portfolio_response (items : List PortfolioJoinedRow)
    (exchange_rates : RateMap) (base_currency : String) : PortfolioResponse :=
  let final := items.foldl (build_step exchange_rates base_currency) ([], 0, 0)
  { investments := final.1
    total_cost := final.2.1
    absolute_change := final.2.2 }

end Portfolio

namespace PortfolioMod

/-- Translation of calculate_change_percent from src/portfolio/mod.rs
(lines 8-14). -/
def calculate_change_percent (current_price : Decimal) (base_price : Decimal) : Decimal :=
  if base_price > 0 then
    ((current_price - base_price) / base_price) * 100
  else 0

/-- Translation of calculate_investment_summary from src/portfolio/mod.rs
(lines 16-47). -/
def calculate_investment_summary (item : PortfolioJoinedRow) (exchange_rate : Decimal)
    (base_currency : String) : InvestmentSummary :=
  let asset_currency := item.currency.getD "USD"
  let current_price_native := item.current_price
  let total_value_native := item.quantity * current_price_native
  let current_price_converted := item.current_price * exchange_rate
  let avg_buy_converted := item.avg_buy_price * exchange_rate
  let total_value_converted := item.quantity * current_price_converted
  let change_pct := calculate_change_percent current_price_native item.avg_buy_price
  { ticker := item.ticker
    name := item.name
    quantity := item.quantity
    avg_buy_price := item.avg_buy_price
    avg_buy_price_converted := avg_buy_converted
    current_price := current_price_native
    current_price_converted := current_price_converted
    total_value := total_value_native
    total_value_converted := total_value_converted
    change_pct := change_pct
    currency := base_currency
    asset_currency := asset_currency
    icon_url := item.icon_url }

/-- Translation of get_exchange_rate from src/portfolio/mod.rs (lines 49-59). -/
def get_exchange_rate (from_currency : String) (to_currency : String)
    (rates : RateMap) : Decimal :=
  if from_currency = to_currency then 1
  else (hashMapGet rates from_currency).getD 1

/-- Body of the for-loop of build_portfolio_response from src/portfolio/mod.rs
(lines 70-83), acting on the accumulator (summary_list, total_cost,
absolute_change). -/
def build_step (exchange_rates : RateMap) (base_currency : String)
    (acc : List InvestmentSummary × Decimal × Decimal) (item : PortfolioJoinedRow) :
    List InvestmentSummary × Decimal × Decimal :=
  let asset_currency := item.currency.getD "USD"
  let rate := get_exchange_rate asset_currency base_currency exchange_rates
  let cost_converted := item.quantity * item.avg_buy_price * rate
  let value_converted := item.quantity * item.current_price * rate
  (acc.1 ++ [calculate_investment_summary item rate base_currency],
    acc.2.1 + cost_converted, acc.2.2 + (value_converted - cost_converted))

/-- Translation of build_portfolio_response from src/portfolio/mod.rs
(lines 61-90). -/
def build_portfolio_response (items : List PortfolioJoinedRow)
    (exchange_rates : RateMap) (base_currency : String) : PortfolioResponse :=
  let final := items.foldl (build_step exchange_rates base_currency) ([], 0, 0)
  { investments := final.1
    total_cost := final.2.1
    absolute_change := final.2.2 }

end PortfolioMod

/-- One HTTP round trip as observed by the calling code: either the connection
failed with an error text, or the server replied; a reply carries the
success-status flag and the body after deserialization, where none stands for a
payload the typed decoder rejected. -/
inductive HttpReply (α : Type) where
  | connFailure (e : String)
  | reply (status_ok : Bool) (body : Option α)

namespace Investments

/-- Translation of fetch_exchange_rate from src/investments.rs (lines 242-274).
The Frankfurter round trip is an oracle of type HttpReply over the decoded
rates object; each rate value is an Option because Decimal::from_f64 can reject
a non-finite number. The second component records whether the network was
used. Status codes inside error texts are not modelled. -/
def fetch_exchange_rate (net : HttpReply (HMap (Option Decimal)))
    (from_code : String) (to_code : String) : Except AppError Decimal × Bool :=
  if from_code = to_code then (Except.ok 1, false)
  else
    let r : Except AppError Decimal :=
      match net with
      | HttpReply.connFailure e =>
          Except.error (AppError.ValidationError ("Frankfurter API connection failed: " ++ e))
      | HttpReply.reply status_ok body =>
          if !status_ok then
            Except.error (AppError.ValidationError "Frankfurter API returned error")
          else
            match body with
            | none =>
                Except.error (AppError.ValidationError "Failed to parse Frankfurter response")
            | some rates =>
                match hashMapGet rates to_code with
                | none =>
                    Except.error (AppError.ValidationError
                      ("No rate found for " ++ from_code ++ " -> " ++ to_code))
                | some none =>
                    Except.error (AppError.ValidationError "Failed to parse exchange rate")
                | some (some rate) => Except.ok rate
    (r, true)

/-- Which provider adapter a call to fetch_price_with_source invoked. -/
inductive AdapterCall where
  | yahoo (t : String)
  | binance (t : String)
  | coingecko (t : String)
deriving DecidableEq

/-- Oracles for the three provider adapters of src/investments.rs: the outcome
each single upstream call would produce for a given provider symbol
(fetch_price_yahoo lines 78-125, fetch_price_binance lines 127-155,
fetch_price_coingecko lines 157-189). -/
structure AdapterEnv where
  yahoo : String → Except AppError (Decimal × String)
  binance : String → Except AppError Decimal
  coingecko : String → Except AppError Decimal

/-- Translation of fetch_price_with_source from src/investments.rs
(lines 13-36). The returned list records which adapters were invoked, in
order. The BINANCE and COINGECKO arms wrap the price with currency USD. -/
def fetch_price_with_source (env : AdapterEnv) ( _ticker : String)
    (api_ticker : String) (source : String) :
    Except AppError (Decimal × String) × List AdapterCall :=
  match source with
  | "YAHOO" => (env.yahoo api_ticker, [AdapterCall.yahoo api_ticker])
  | "BINANCE" =>
      ((env.binance api_ticker).map (fun p => (p, "USD")), [AdapterCall.binance api_ticker])
  | "COINGECKO" =>
      ((env.coingecko api_ticker).map (fun p => (p, "USD")), [AdapterCall.coingecko api_ticker])
  | _ =>
      (Except.error (AppError.ValidationError ("Unknown price source: " ++ source)), [])

/-- Translation of fetch_coingecko_icon from src/investments.rs
(lines 203-234). The round trip is an oracle whose body, when decodable, is the
image.large URL. A connection failure is an error; a non-success status or an
undecodable body yields ok none; URL building and logging are not modelled. -/
def fetch_coingecko_icon (net : HttpReply String) ( _coin_id : String) :
    Except AppError (Option String) :=
  match net with
  | HttpReply.connFailure e =>
      Except.error (AppError.ValidationError ("CoinGecko icon API connection failed: " ++ e))
  | HttpReply.reply status_ok body =>
      if !status_ok then Except.ok none
      else
        match body with
        | none => Except.ok none
        | some large => Except.ok (some large)

end Investments

namespace Services

/-- Model of a moka cache keyed by String: an association list, newest entry
first. -/
abbrev Cache := HMap Decimal

/-- Model of moka insert: prepend, so a later entry for the same key shadows an
earlier one under hashMapGet. -/
def cacheInsert (c : Cache) (key : String) (v : Decimal) : Cache := (key, v) :: c

/-- Cache key built by get_cached_exchange_rate in src/services.rs line 537. -/
def fx_cache_key (from_code : String) (to_code : String) : String :=
  from_code ++ "_" ++ to_code

/-- Instrumented outcome of get_cached_exchange_rate: the returned value, the
exchange-rate cache after the call, how many cache lookups were performed and
how many times the upstream fetch was invoked. -/
structure FxCallResult where
  result : Except AppError Decimal
  cache : Cache
  cache_lookups : Nat
  fetch_calls : Nat

/-- Translation of FinanceService::get_cached_exchange_rate from
src/services.rs (lines 532-547). The Frankfurter round trip that
investments::fetch_exchange_rate would perform is the oracle net. -/
def get_cached_exchange_rate (cache : Cache) (net : HttpReply (HMap (Option Decimal)))
    (from_code : String) (to_code : String) : FxCallResult :=
  if from_code = to_code then
    { result := Except.ok 1, cache := cache, cache_lookups := 0, fetch_calls := 0 }
  else
    match hashMapGet cache (fx_cache_key from_code to_code) with
    | some rate =>
        { result := Except.ok rate, cache := cache, cache_lookups := 1, fetch_calls := 0 }
    | none =>
        match (Investments.fetch_exchange_rate net from_code to_code).1 with
        | Except.ok rate =>
            { result := Except.ok rate
              cache := cacheInsert cache (fx_cache_key from_code to_code) rate
              cache_lookups := 1, fetch_calls := 1 }
        | Except.error e =>
            { result := Except.error e, cache := cache, cache_lookups := 1, fetch_calls := 1 }

/-- Model of the assets-table row used by ensure_price_fresh (the fields it
reads: api_ticker, source, icon_url). -/
structure Asset where
  api_ticker : Option String
  source : Option String
  icon_url : Option String

/-- Oracles and cache state for FinanceService price refreshing: the price
cache, the portfolio_repo.get_asset lookup, the three provider adapters, and
the update_asset_price write. The icon round trip and icon write are swallowed
by the source whatever they return, so only the fact that the icon path was
taken is tracked. -/
structure PriceEnv where
  price_cache : Cache
  get_asset : String → Except AppError (Option Asset)
  adapters : Investments.AdapterEnv
  update_asset_price : String → Decimal → String → Except AppError Unit

/-- Instrumented outcome of ensure_price_fresh: the returned value, the price
cache after the call, and whether the lazy icon-population branch ran. -/
structure PriceFreshResult where
  result : Except AppError Decimal
  cache : Cache
  icon_attempted : Bool

/-- Resolution of (api_ticker, source) from the optional asset row, as done by
ensure_price_fresh in src/services.rs lines 625-651: recorded values with
per-field defaults when an asset row exists, otherwise (ticker, YAHOO). -/
def resolve_asset (asset_opt : Option Asset) (ticker : String) : String × String :=
  match asset_opt with
  | some asset => (asset.api_ticker.getD ticker, asset.source.getD "YAHOO")
  | none => (ticker, "YAHOO")

/-- Translation of FinanceService::ensure_price_fresh from src/services.rs
(lines 616-665). A cache hit returns at once; otherwise the asset row is
fetched (its failure propagates), the icon branch runs best-effort when the
row has no icon and the source is COINGECKO (its outcome never influences the
result or the price cache, so it is recorded only as a flag), the price is
fetched through fetch_price_with_source (failure propagates, nothing cached),
the price is persisted (failure propagates, nothing cached), and only then is
the price inserted into the cache and returned. -/
def ensure_price_fresh (env : PriceEnv) (ticker : String) : PriceFreshResult :=
  match hashMapGet env.price_cache ticker with
  | some price => { result := Except.ok price, cache := env.price_cache, icon_attempted := false }
  | none =>
      match env.get_asset ticker with
      | Except.error e =>
          { result := Except.error e, cache := env.price_cache, icon_attempted := false }
      | Except.ok asset_opt =>
          let resolved := resolve_asset asset_opt ticker
          let api_ticker := resolved.1
          let source := resolved.2
          let icon_attempted :=
            match asset_opt with
            | some asset => asset.icon_url.isNone && (source == "COINGECKO")
            | none => false
          match (Investments.fetch_price_with_source env.adapters ticker api_ticker source).1 with
          | Except.error e =>
              { result := Except.error e, cache := env.price_cache,
                icon_attempted := icon_attempted }
          | Except.ok pc =>
              match env.update_asset_price ticker pc.1 pc.2 with
              | Except.error e =>
                  { result := Except.error e, cache := env.price_cache,
                    icon_attempted := icon_attempted }
              | Except.ok _ =>
                  { result := Except.ok pc.1
                    cache := cacheInsert env.price_cache ticker pc.1
                    icon_attempted := icon_attempted }

/-- Instrumented outcome of refresh_portfolio: the returned count (or error),
the price cache after the call, and the tickers for which a refresh was
attempted, in order. -/
structure RefreshResult where
  result : Except AppError Nat
  cache : Cache
  attempted : List String

/-- Translation of FinanceService::refresh_portfolio from src/services.rs
(lines 570-585). The ticker list comes from portfolio_repo.get_tickers (an
oracle; its failure propagates). Every ticker is then refreshed; a per-ticker
failure is only logged (modelled by discarding the error), and the fan-out is
modelled sequentially, threading the price cache. The returned count is the
number of tickers, fixed before any refresh runs. -/
def refresh_portfolio (get_tickers : Except AppError (List String))
    (env : PriceEnv) : RefreshResult :=
  match get_tickers with
  | Except.error e => { result := Except.error e, cache := env.price_cache, attempted := [] }
  | Except.ok tickers =>
      let count := tickers.length
      let final := tickers.foldl
        (fun acc ticker =>
          let r := ensure_price_fresh { env with price_cache := acc.1 } ticker
          (r.cache, acc.2 ++ [ticker]))
        (env.price_cache, ([] : List String))
      { result := Except.ok count, cache := final.1, attempted := final.2 }

end Services

/-- Test holding from the specification: AAPL, quantity 10, average buy 100,
current price 120, quoted in USD. -/
def aaplRow : PortfolioJoinedRow :=
  { ticker := "AAPL", name := "AAPL Inc", quantity := 10, avg_buy_price := 100,
    current_price := 120, source := some "YAHOO", api_ticker := some "AAPL",
    currency := some "USD", icon_url := none }

/-- Test holding from the specification: GOOGL, quantity 5, average buy 200,
current price 180, quoted in USD. -/
def googlRow : PortfolioJoinedRow :=
  { ticker := "GOOGL", name := "GOOGL Inc", quantity := 5, avg_buy_price := 200,
    current_price := 180, source := some "YAHOO", api_ticker := some "GOOGL",
    currency := some "USD", icon_url := none }

/-- Test holding from the specification: quantity 10, average buy 150, current
price 180, quoted in USD, reported in an SGD base with rate 1.35. -/
def sgdExampleRow : PortfolioJoinedRow :=
  { ticker := "AAPL", name := "AAPL Inc", quantity := 10, avg_buy_price := 150,
    current_price := 180, source := some "YAHOO", api_ticker := some "AAPL",
    currency := some "USD", icon_url := none }

/-- Concrete service environment with an empty price cache, an asset catalog
with no row for any ticker, and a Yahoo adapter that is down. -/
def c5Env : Services.PriceEnv :=
  { price_cache := []
    get_asset := fun _ => Except.ok none
    adapters :=
      { yahoo := fun _ => Except.error (AppError.ValidationError "Yahoo down")
        binance := fun _ => Except.ok 1
        coingecko := fun _ => Except.ok 1 }
    update_asset_price := fun _ _ _ => Except.ok () }

/-- Concrete service environment in which the ticker FAIL has a permanently
failing provider while every other ticker succeeds. -/
def c6Env : Services.PriceEnv :=
  { price_cache := []
    get_asset := fun _ => Except.ok none
    adapters :=
      { yahoo := fun t =>
          if t = "FAIL" then Except.error (AppError.ValidationError "provider down")
          else Except.ok (1, "USD")
        binance := fun _ => Except.ok 1
        coingecko := fun _ => Except.ok 1 }
    update_asset_price := fun _ _ _ => Except.ok () }

/-- C9: the two coexisting implementations of the valuation engine are
equivalent: for every list of holdings, exchange-rate map and base currency,
build_portfolio_response of src/portfolio.rs and build_portfolio_response of
src/portfolio/mod.rs return equal results (same summaries in the same order,
same total_cost, same absolute_change). -/
theorem c9_builders_equivalent :
    ∀ (items : List PortfolioJoinedRow) (rates : RateMap) (bc : String),
      Portfolio.build_portfolio_response items rates bc
        = PortfolioMod.build_portfolio_response items rates bc := by
  intro items rates bc
  rfl

/-- C2: for every holding the computed change percentage equals
(current − avg_buy) / avg_buy * 100 exactly when the native average buy price
is positive, and is exactly 0 otherwise; in particular a zero average buy
price yields 0 for any current price. Division never runs in the non-positive
branch, and all functions are total, so no division by zero is performed. -/
theorem c2_change_pct_zero_guard :
    (∀ (current_price base_price : Decimal),
      PortfolioMod.calculate_change_percent current_price base_price
        = if base_price > 0 then ((current_price - base_price) / base_price) * 100 else 0)
    ∧ (∀ (item : PortfolioJoinedRow) (rate : Decimal) (bc : String),
      (Portfolio.calculate_investment_summary item rate bc).change_pct
        = if item.avg_buy_price > 0 then
            ((item.current_price - item.avg_buy_price) / item.avg_buy_price) * 100
          else 0)
    ∧ (∀ (item : PortfolioJoinedRow) (rate : Decimal) (bc : String),
      (PortfolioMod.calculate_investment_summary item rate bc).change_pct
        = if item.avg_buy_price > 0 then
            ((item.current_price - item.avg_buy_price) / item.avg_buy_price) * 100
          else 0)
    ∧ (∀ (tk nm : String) (qty current_price : Decimal)
        (src apit cur icon : Option String) (rate : Decimal) (bc : String),
      (Portfolio.calculate_investment_summary
          { ticker := tk, name := nm, quantity := qty, avg_buy_price := 0,
            current_price := current_price, source := src, api_ticker := apit,
            currency := cur, icon_url := icon } rate bc).change_pct = 0) := by
  refine ⟨fun c b => rfl, fun item r bc => rfl, fun item r bc => rfl, ?_⟩
  intro tk nm qty cp src apit cur icon rate bc
  simp [Portfolio.calculate_investment_summary]

/-- C8: the change percentage of an investment summary is invariant under
currency conversion: for every holding, base currency and pair of exchange
rates, both implementations of calculate_investment_summary yield the same
change_pct for either rate, and in the SGD example with rate 1.35 the
change_pct stays exactly 20. -/
theorem c8_change_pct_rate_invariant :
    (∀ (item : PortfolioJoinedRow) (bc : String) (r1 r2 : Decimal),
      (Portfolio.calculate_investment_summary item r1 bc).change_pct
        = (Portfolio.calculate_investment_summary item r2 bc).change_pct)
    ∧ (∀ (item : PortfolioJoinedRow) (bc : String) (r1 r2 : Decimal),
      (PortfolioMod.calculate_investment_summary item r1 bc).change_pct
        = (PortfolioMod.calculate_investment_summary item r2 bc).change_pct)
    ∧ ((PortfolioMod.calculate_investment_summary sgdExampleRow (1.35 : Decimal) "SGD").change_pct
        = 20
      ∧ (Portfolio.calculate_investment_summary sgdExampleRow (1.35 : Decimal) "SGD").change_pct
        = 20
      ∧ (PortfolioMod.calculate_investment_summary sgdExampleRow 1 "USD").change_pct = 20) := by
  refine ⟨fun item bc r1 r2 => rfl, fun item bc r1 r2 => rfl, ?_, ?_, ?_⟩ <;>
    · simp [PortfolioMod.calculate_investment_summary, Portfolio.calculate_investment_summary,
        PortfolioMod.calculate_change_percent, sgdExampleRow]
      norm_num

/-- C10: fetch_coingecko_icon returns ok none rather than an error when the
upstream responds with a non-success status or an unparsable payload; only a
connection failure yields an error, so every reachable upstream reply
produces an ok value. -/
theorem c10_icon_total_on_reply :
    (∀ (cid : String) (ok : Bool) (body : Option String), ∃ v,
      Investments.fetch_coingecko_icon (HttpReply.reply ok body) cid = Except.ok v)
    ∧ (∀ (cid : String) (body : Option String),
      Investments.fetch_coingecko_icon (HttpReply.reply false body) cid = Except.ok none)
    ∧ (∀ (cid : String),
      Investments.fetch_coingecko_icon (HttpReply.reply true none) cid = Except.ok none)
    ∧ (∀ (cid large : String),
      Investments.fetch_coingecko_icon (HttpReply.reply true (some large)) cid
        = Except.ok (some large))
    ∧ (∀ (cid e : String),
      Investments.fetch_coingecko_icon (HttpReply.connFailure e) cid
        = Except.error (AppError.ValidationError
            ("CoinGecko icon API connection failed: " ++ e))) := by
  refine ⟨?_, fun cid body => rfl, fun cid => rfl, fun cid large => rfl, fun cid e => rfl⟩
  intro cid ok body
  cases ok with
  | false => exact ⟨none, rfl⟩
  | true =>
      cases body with
      | none => exact ⟨none, rfl⟩
      | some large => exact ⟨some large, rfl⟩

/-- C4: the FX rate for a pair of equal currency codes is exactly 1 and is
produced by the short-circuit: fetch_exchange_rate does not touch the network
(flag false) and get_cached_exchange_rate performs no cache lookup and no
fetch, leaving the cache unchanged — for every code and every state of the
world. -/
theorem c4_identity_rate_short_circuit :
    (∀ (net : HttpReply (HMap (Option Decimal))) (x : String),
      Investments.fetch_exchange_rate net x x = (Except.ok 1, false))
    ∧ (∀ (cache : Services.Cache) (net : HttpReply (HMap (Option Decimal))) (x : String),
      Services.get_cached_exchange_rate cache net x x
        = { result := Except.ok 1, cache := cache, cache_lookups := 0, fetch_calls := 0 }) := by
  constructor
  · intro net x
    simp [Investments.fetch_exchange_rate]
  · intro cache net x
    simp [Services.get_cached_exchange_rate]

/-- C7: fetch_price_with_source dispatches by provider id to exactly one
adapter among YAHOO, BINANCE and COINGECKO; any other provider id yields the
unknown-source validation error with no adapter invoked; at most one adapter
is ever invoked, so there is no cross-provider fallback. -/
theorem c7_provider_dispatch :
    (∀ (env : Investments.AdapterEnv) (t a : String),
      Investments.fetch_price_with_source env t a "YAHOO"
        = (env.yahoo a, [Investments.AdapterCall.yahoo a]))
    ∧ (∀ (env : Investments.AdapterEnv) (t a : String),
      Investments.fetch_price_with_source env t a "BINANCE"
        = ((env.binance a).map (fun p => (p, "USD")), [Investments.AdapterCall.binance a]))
    ∧ (∀ (env : Investments.AdapterEnv) (t a : String),
      Investments.fetch_price_with_source env t a "COINGECKO"
        = ((env.coingecko a).map (fun p => (p, "USD")), [Investments.AdapterCall.coingecko a]))
    ∧ (∀ (env : Investments.AdapterEnv) (t a s : String),
      s ≠ "YAHOO" → s ≠ "BINANCE" → s ≠ "COINGECKO" →
      Investments.fetch_price_with_source env t a s
        = (Except.error (AppError.ValidationError ("Unknown price source: " ++ s)), []))
    ∧ (∀ (env : Investments.AdapterEnv) (t a s : String),
      (Investments.fetch_price_with_source env t a s).2.length ≤ 1) := by
  refine ⟨fun env t a => rfl, fun env t a => rfl, fun env t a => rfl, ?_, ?_⟩
  · intro env t a s h1 h2 h3
    unfold Investments.fetch_price_with_source
    split <;> simp_all
  · intro env t a s
    unfold Investments.fetch_price_with_source
    split <;> simp

/-- Witness for C7 at the concrete unsupported provider id KRAKEN and a
concrete adapter environment: the dispatcher returns the unknown-source error
and invokes no adapter. -/
theorem c7_provider_dispatch_witness :
    Investments.fetch_price_with_source
        { yahoo := fun _ => Except.ok (1, "USD"),
          binance := fun _ => Except.ok 1,
          coingecko := fun _ => Except.ok 1 } "BTC" "BTC" "KRAKEN"
      = (Except.error (AppError.ValidationError ("Unknown price source: " ++ "KRAKEN")), []) := by
  exact c7_provider_dispatch.2.2.2.1
    { yahoo := fun _ => Except.ok (1, "USD"),
      binance := fun _ => Except.ok 1,
      coingecko := fun _ => Except.ok 1 } "BTC" "BTC" "KRAKEN"
    (by decide) (by decide) (by decide)

/-- Both build_portfolio_response implementations are definitionally equal in
the embedding. -/
theorem build_impls_eq (items : List PortfolioJoinedRow) (rates : RateMap) (bc : String) :
    Portfolio.build_portfolio_response items rates bc
      = PortfolioMod.build_portfolio_response items rates bc := rfl

/-- Loop invariant of the builder fold: starting from any accumulator, the
fold appends one summary per holding, built with that holding resolved rate,
and adds the converted cost and the converted change of each holding to the
running totals. -/
theorem modBuild_foldl (rates : RateMap) (bc : String) :
    ∀ (items : List PortfolioJoinedRow) (l : List InvestmentSummary) (c a : Decimal),
      items.foldl (PortfolioMod.build_step rates bc) (l, c, a)
        = (l ++ items.map (fun it =>
              PortfolioMod.calculate_investment_summary it
                (PortfolioMod.get_exchange_rate (it.currency.getD "USD") bc rates) bc),
           c + (items.map (fun it =>
              it.quantity * it.avg_buy_price
                * PortfolioMod.get_exchange_rate (it.currency.getD "USD") bc rates)).sum,
           a + (items.map (fun it =>
              it.quantity * it.current_price
                * PortfolioMod.get_exchange_rate (it.currency.getD "USD") bc rates
              - it.quantity * it.avg_buy_price
                * PortfolioMod.get_exchange_rate (it.currency.getD "USD") bc rates)).sum) := by
  intro items
  induction items with
  | nil => intro l c a; simp
  | cons it its ih =>
      intro l c a
      simp only [List.foldl_cons, List.map_cons, List.sum_cons]
      rw [show PortfolioMod.build_step rates bc (l, c, a) it
          = (l ++ [PortfolioMod.calculate_investment_summary it
                (PortfolioMod.get_exchange_rate (it.currency.getD "USD") bc rates) bc],
             c + it.quantity * it.avg_buy_price
                * PortfolioMod.get_exchange_rate (it.currency.getD "USD") bc rates,
             a + (it.quantity * it.current_price
                * PortfolioMod.get_exchange_rate (it.currency.getD "USD") bc rates
              - it.quantity * it.avg_buy_price
                * PortfolioMod.get_exchange_rate (it.currency.getD "USD") bc rates)) from rfl]
      rw [ih]
      simp [add_assoc]

/-- The investments of the built report are the per-holding summaries, each
using that holding resolved rate. -/
theorem mod_investments_eq (items : List PortfolioJoinedRow) (rates : RateMap) (bc : String) :
    (PortfolioMod.build_portfolio_response items rates bc).investments
      = items.map (fun it =>
          PortfolioMod.calculate_investment_summary it
            (PortfolioMod.get_exchange_rate (it.currency.getD "USD") bc rates) bc) := by
  show (items.foldl (PortfolioMod.build_step rates bc) ([], 0, 0)).1 = _
  rw [modBuild_foldl rates bc items [] 0 0]
  simp

/-- The total cost of the built report is the sum of converted costs. -/
theorem mod_total_cost_eq (items : List PortfolioJoinedRow) (rates : RateMap) (bc : String) :
    (PortfolioMod.build_portfolio_response items rates bc).total_cost
      = (items.map (fun it =>
          it.quantity * it.avg_buy_price
            * PortfolioMod.get_exchange_rate (it.currency.getD "USD") bc rates)).sum := by
  show (items.foldl (PortfolioMod.build_step rates bc) ([], 0, 0)).2.1 = _
  rw [modBuild_foldl rates bc items [] 0 0]
  simp

/-- The absolute change of the built report is the sum of converted changes. -/
theorem mod_absolute_change_eq (items : List PortfolioJoinedRow) (rates : RateMap) (bc : String) :
    (PortfolioMod.build_portfolio_response items rates bc).absolute_change
      = (items.map (fun it =>
          it.quantity * it.current_price
            * PortfolioMod.get_exchange_rate (it.currency.getD "USD") bc rates
          - it.quantity * it.avg_buy_price
            * PortfolioMod.get_exchange_rate (it.currency.getD "USD") bc rates)).sum := by
  show (items.foldl (PortfolioMod.build_step rates bc) ([], 0, 0)).2.2 = _
  rw [modBuild_foldl rates bc items [] 0 0]
  simp

/-- C3: the valuation engine resolves the conversion rate of a holding as 1
when the asset currency (the recorded currency, defaulting to USD when
absent) equals the base currency, and otherwise as the map entry for that
currency, defaulting to 1 when the entry is absent; both report builders
apply exactly this resolved rate to every holding and always return a full
report, so an absent rate never aborts or errors the report. -/
theorem c3_rate_resolution :
    (∀ (from_currency to_currency : String) (rates : RateMap),
      PortfolioMod.get_exchange_rate from_currency to_currency rates
        = if from_currency = to_currency then 1
          else (hashMapGet rates from_currency).getD 1)
    ∧ (∀ (from_currency to_currency : String) (rates : RateMap),
      hashMapGet rates from_currency = none →
      PortfolioMod.get_exchange_rate from_currency to_currency rates = 1)
    ∧ (∀ (items : List PortfolioJoinedRow) (rates : RateMap) (bc : String),
      (Portfolio.build_portfolio_response items rates bc).investments
        = items.map (fun it =>
            Portfolio.calculate_investment_summary it
              (PortfolioMod.get_exchange_rate (it.currency.getD "USD") bc rates) bc))
    ∧ (∀ (items : List PortfolioJoinedRow) (rates : RateMap) (bc : String),
      (PortfolioMod.build_portfolio_response items rates bc).investments
        = items.map (fun it =>
            PortfolioMod.calculate_investment_summary it
              (PortfolioMod.get_exchange_rate (it.currency.getD "USD") bc rates) bc)) := by
  refine ⟨fun fc tc rates => rfl, ?_, ?_, ?_⟩
  · intro fc tc rates h
    simp [PortfolioMod.get_exchange_rate, h]
  · intro items rates bc
    exact mod_investments_eq items rates bc
  · intro items rates bc
    exact mod_investments_eq items rates bc

/-- Witness for C3 at a concrete absent rate: with an empty rate map and EUR
holdings in a USD base, the resolved rate defaults to 1. -/
theorem c3_rate_resolution_witness :
    PortfolioMod.get_exchange_rate "EUR" "USD" [] = 1 :=
  c3_rate_resolution.2.1 "EUR" "USD" [] rfl

/-- C1: for every list of holdings, exchange-rate map and base currency, both
build_portfolio_response implementations return total_cost equal to the sum
over holdings of quantity times the base-currency average buy price, and
absolute_change equal to the sum over holdings of the difference between
quantity times the base-currency current price and quantity times the
base-currency average buy price, each holding converted with its own resolved
rate; on the two USD holdings AAPL (10, 100, 120) and GOOGL (5, 200, 180)
with base USD this gives total_cost 2000 and absolute_change 100. -/
theorem c1_totals_are_per_holding_sums :
    (∀ (items : List PortfolioJoinedRow) (rates : RateMap) (bc : String),
      (Portfolio.build_portfolio_response items rates bc).total_cost
        = (items.map (fun it =>
            it.quantity * (it.avg_buy_price
              * PortfolioMod.get_exchange_rate (it.currency.getD "USD") bc rates))).sum
      ∧ (Portfolio.build_portfolio_response items rates bc).absolute_change
        = (items.map (fun it =>
            it.quantity * (it.current_price
              * PortfolioMod.get_exchange_rate (it.currency.getD "USD") bc rates)
            - it.quantity * (it.avg_buy_price
              * PortfolioMod.get_exchange_rate (it.currency.getD "USD") bc rates))).sum
      ∧ (PortfolioMod.build_portfolio_response items rates bc).total_cost
        = (items.map (fun it =>
            it.quantity * (it.avg_buy_price
              * PortfolioMod.get_exchange_rate (it.currency.getD "USD") bc rates))).sum
      ∧ (PortfolioMod.build_portfolio_response items rates bc).absolute_change
        = (items.map (fun it =>
            it.quantity * (it.current_price
              * PortfolioMod.get_exchange_rate (it.currency.getD "USD") bc rates)
            - it.quantity * (it.avg_buy_price
              * PortfolioMod.get_exchange_rate (it.currency.getD "USD") bc rates))).sum)
    ∧ ((Portfolio.build_portfolio_response [aaplRow, googlRow] [] "USD").total_cost = 2000
      ∧ (Portfolio.build_portfolio_response [aaplRow, googlRow] [] "USD").absolute_change = 100
      ∧ (PortfolioMod.build_portfolio_response [aaplRow, googlRow] [] "USD").total_cost = 2000
      ∧ (PortfolioMod.build_portfolio_response [aaplRow, googlRow] [] "USD").absolute_change
          = 100) := by
  constructor
  · intro items rates bc
    refine ⟨?_, ?_, ?_, ?_⟩
    · rw [build_impls_eq, mod_total_cost_eq]
      simp [mul_assoc]
    · rw [build_impls_eq, mod_absolute_change_eq]
      simp [mul_assoc]
    · rw [mod_total_cost_eq]
      simp [mul_assoc]
    · rw [mod_absolute_change_eq]
      simp [mul_assoc]
  · refine ⟨?_, ?_, ?_, ?_⟩ <;>
      simp [build_impls_eq, PortfolioMod.build_portfolio_response, PortfolioMod.build_step,
        PortfolioMod.get_exchange_rate, PortfolioMod.calculate_investment_summary,
        PortfolioMod.calculate_change_percent, aaplRow, googlRow, hashMapGet] <;>
      norm_num

/-- C5: a failed upstream fetch is never cached. For the FX cache, whenever
the Frankfurter fetch would fail, get_cached_exchange_rate leaves the cache
unchanged, and on a miss the error propagates and an immediately repeated call
invokes the fetch again. For the price cache, whenever the provider fetch
fails on a miss, ensure_price_fresh leaves the price cache unchanged and
propagates the error. -/
theorem c5_failed_fetch_never_cached :
    (∀ (cache : Services.Cache) (net : HttpReply (HMap (Option Decimal)))
        (fc tc : String) (e : AppError),
      (Investments.fetch_exchange_rate net fc tc).1 = Except.error e →
      (Services.get_cached_exchange_rate cache net fc tc).cache = cache
      ∧ (hashMapGet cache (Services.fx_cache_key fc tc) = none →
          (Services.get_cached_exchange_rate cache net fc tc).result = Except.error e
          ∧ (Services.get_cached_exchange_rate
              (Services.get_cached_exchange_rate cache net fc tc).cache net fc tc).fetch_calls
              = 1))
    ∧ (∀ (env : Services.PriceEnv) (ticker : String) (e : AppError)
        (asset_opt : Option Services.Asset),
      hashMapGet env.price_cache ticker = none →
      env.get_asset ticker = Except.ok asset_opt →
      (Investments.fetch_price_with_source env.adapters ticker
          (Services.resolve_asset asset_opt ticker).1
          (Services.resolve_asset asset_opt ticker).2).1 = Except.error e →
      (Services.ensure_price_fresh env ticker).cache = env.price_cache
      ∧ (Services.ensure_price_fresh env ticker).result = Except.error e) := by
  constructor
  · intro cache net fc tc e hf
    by_cases hft : fc = tc
    · subst hft
      simp [Investments.fetch_exchange_rate] at hf
    · constructor
      · simp only [Services.get_cached_exchange_rate, if_neg hft]
        cases hlk : hashMapGet cache (Services.fx_cache_key fc tc) <;> simp [hlk, hf]
      · intro hnone
        simp [Services.get_cached_exchange_rate, if_neg hft, hnone, hf]
  · intro env ticker e asset_opt hmiss hasset hfetch
    constructor <;>
      simp [Services.ensure_price_fresh, hmiss, hasset, hfetch]

/-- Witness for C5 at concrete inputs: a connection failure on the EUR to SGD
pair leaves the empty FX cache empty and propagates the error, and the failing
Yahoo fetch leaves the empty price cache empty and propagates the error. -/
theorem c5_failed_fetch_never_cached_witness :
    ((Services.get_cached_exchange_rate [] (HttpReply.connFailure "offline") "EUR" "SGD").cache
        = []
      ∧ (Services.get_cached_exchange_rate [] (HttpReply.connFailure "offline") "EUR" "SGD").result
        = Except.error (AppError.ValidationError
            ("Frankfurter API connection failed: " ++ "offline")))
    ∧ ((Services.ensure_price_fresh c5Env "AAPL").cache = []
      ∧ (Services.ensure_price_fresh c5Env "AAPL").result
        = Except.error (AppError.ValidationError "Yahoo down")) := by
  have h1 := c5_failed_fetch_never_cached.1 [] (HttpReply.connFailure "offline") "EUR" "SGD"
    (AppError.ValidationError ("Frankfurter API connection failed: " ++ "offline"))
    (by simp [Investments.fetch_exchange_rate])
  have h2 := c5_failed_fetch_never_cached.2 c5Env "AAPL"
    (AppError.ValidationError "Yahoo down") none rfl rfl rfl
  exact ⟨⟨h1.1, (h1.2 rfl).1⟩, h2⟩

/-- Loop invariant of the refresh fan-out: the list of attempted tickers after
the fold is the starting list followed by every input ticker, whatever the
per-ticker outcomes were. -/
theorem refresh_foldl_attempted (env : Services.PriceEnv) :
    ∀ (ts : List String) (c : Services.Cache) (l : List String),
      (ts.foldl (fun acc ticker =>
          ((Services.ensure_price_fresh { env with price_cache := acc.1 } ticker).cache,
            acc.2 ++ [ticker])) (c, l)).2 = l ++ ts := by
  intro ts
  induction ts with
  | nil => intro c l; simp
  | cons t ts ih =>
      intro c l
      simp only [List.foldl_cons]
      rw [ih]
      simp

/-- C6: refresh_portfolio reports the number of tickers attempted, not the
number that succeeded: for every environment, whenever the ticker query
returns a list, the result is ok with the length of that list and every
ticker of the list is attempted in order, regardless of any per-ticker
failures, which never surface to the caller. -/
theorem c6_refresh_counts_attempted :
    ∀ (get_tickers : Except AppError (List String)) (env : Services.PriceEnv)
      (tickers : List String),
      get_tickers = Except.ok tickers →
      (Services.refresh_portfolio get_tickers env).result = Except.ok tickers.length
      ∧ (Services.refresh_portfolio get_tickers env).attempted = tickers := by
  intro gt env tickers h
  subst h
  constructor
  · rfl
  · show (tickers.foldl _ (env.price_cache, ([] : List String))).2 = tickers
    rw [refresh_foldl_attempted env tickers env.price_cache []]
    simp

/-- Witness for C6 at a concrete input: over one always-failing and one
succeeding ticker, refresh_portfolio reports both as attempted, returns ok 2,
and the failing refresh indeed fails on its own. -/
theorem c6_refresh_counts_attempted_witness :
    (Services.refresh_portfolio (Except.ok ["FAIL", "OK"]) c6Env).result = Except.ok 2
    ∧ (Services.refresh_portfolio (Except.ok ["FAIL", "OK"]) c6Env).attempted = ["FAIL", "OK"]
    ∧ (Services.ensure_price_fresh c6Env "FAIL").result
        = Except.error (AppError.ValidationError "provider down") := by
  have h := c6_refresh_counts_attempted (Except.ok ["FAIL", "OK"]) c6Env ["FAIL", "OK"] rfl
  refine ⟨h.1, h.2, ?_⟩
  simp [Services.ensure_price_fresh, c6Env, hashMapGet, Services.resolve_asset,
    Investments.fetch_price_with_source]
